import Mathlib

/-!
# Verification of the artemis timelapse controller

A shallow embedding of `artemis.py` (class `Artemis`): the shutter-speed
table and its parser, the interval planner, the feasibility check, the
configuration load/save, the menu edit actions, and the per-frame shooting
loop with its cooperative cancellation flag.

Machine reals (Python floats) are modelled as exact rationals `ℚ`;
Python exceptions (`IndexError`, `ZeroDivisionError`, `ValueError` from
`json.load`) are modelled as `none`.  Times are seconds throughout.
-/

/-- A Python value stored in `Artemis.shutter_values`: either a string
label or an integer. -/
inductive PyVal where
  | str (s : List Char)
  | int (n : ℤ)
deriving DecidableEq, Repr

/-- The double-quote character `"` used inside quoted-decimal labels. -/
def quoteChar : Char := Char.ofNat 34

/-- Python `c in s` membership test on a string, as a list of characters. -/
def containsChar (c : Char) : List Char → Bool
  | [] => false
  | x :: xs => x == c || containsChar c xs

/-- Python `s.split(c)` on a single-character separator. -/
def splitOnChar (c : Char) : List Char → List (List Char)
  | [] => [[]]
  | x :: xs =>
    if x == c then [] :: splitOnChar c xs
    else
      match splitOnChar c xs with
      | [] => [[x]]
      | p :: ps => (x :: p) :: ps

/-- Python `s.replace(a, b)` for single characters. -/
def replaceChar (a b : Char) (l : List Char) : List Char :=
  l.map (fun x => if x == a then b else x)

/-- Parses a non-empty run of decimal digits, accumulating into `acc`. -/
def parseDigitsAux (acc : ℕ) : List Char → Option ℕ
  | [] => some acc
  | c :: cs => if c.isDigit then parseDigitsAux (acc * 10 + (c.toNat - 48)) cs else none

/-- Parses a non-empty all-digit string as a natural number. -/
def parseDigits : List Char → Option ℕ
  | [] => none
  | l => parseDigitsAux 0 l

/-- Python `float()` restricted to the shapes occurring in the shutter
table labels: a digit run, optionally split by one decimal point. -/
def pyFloat (l : List Char) : Option ℚ :=
  match splitOnChar (Char.ofNat 46) l with
  | [w] => (parseDigits w).map (fun n => (n : ℚ))
  | [w, f] =>
    match parseDigits w, parseDigits f with
    | some n, some m => some ((n : ℚ) + (m : ℚ) / (10 : ℚ) ^ f.length)
    | _, _ => none
  | _ => none

/-- Builds a quoted-decimal shutter label `N"M`. -/
def quotedLabel (n m : Char) : List Char := [n, quoteChar, m]

/-- Method `Artemis.shutter_values`: the fixed ordered table of shutter-speed
labels, a mix of fraction strings, quoted-decimal strings and integers. -/
def shutter_values : List PyVal :=
  [.str "1/10".data, .str "1/8".data, .str "1/6".data, .str "1/5".data, .str "1/4".data,
   .str (quotedLabel (Char.ofNat 48) (Char.ofNat 51)),
   .str (quotedLabel (Char.ofNat 48) (Char.ofNat 52)),
   .str (quotedLabel (Char.ofNat 48) (Char.ofNat 53)),
   .str (quotedLabel (Char.ofNat 48) (Char.ofNat 54)),
   .str (quotedLabel (Char.ofNat 48) (Char.ofNat 56)),
   .int 1,
   .str (quotedLabel (Char.ofNat 49) (Char.ofNat 51)),
   .str (quotedLabel (Char.ofNat 49) (Char.ofNat 54)),
   .int 2,
   .str (quotedLabel (Char.ofNat 50) (Char.ofNat 53)),
   .int 3,
   .str (quotedLabel (Char.ofNat 51) (Char.ofNat 50)),
   .int 4, .int 5, .int 6, .int 7, .int 8, .int 10, .int 13, .int 15,
   .int 20, .int 25, .int 30, .int 35, .int 40, .int 45, .int 50, .int 55, .int 60]

/-- Python list indexing `l[i]`: a non-negative index counts from the
front, an index in `[-len, -1]` counts from the back, and anything else
raises `IndexError` (modelled as `none`). -/
def pyGet (l : List PyVal) (i : ℤ) : Option PyVal :=
  if 0 ≤ i then l.get? i.toNat
  else if 0 ≤ i + l.length then (i + l.length).toNat |> l.get?
  else none

/-- Method `Artemis.get_shutter_speed(position)`: looks up the table entry and
converts it to seconds.  A fraction label `N/M` yields `N/M`; a
quoted-decimal label `N"M` yields `N.M`; an integer entry is returned
as-is.  A plain string without `/` or `"` would be returned unchanged by
the Python code (not a number); no table entry has that shape, and that
fall-through is modelled as `none`.  An out-of-range index raises
`IndexError` (`none`), and dividing by a zero denominator would raise
`ZeroDivisionError` (`none`); neither occurs on the actual table. -/
def get_shutter_speed (position : ℤ) : Option ℚ :=
  match pyGet shutter_values position with
  | none => none
  | some (.int n) => some (n : ℚ)
  | some (.str s) =>
    if containsChar (Char.ofNat 47) s then
      match splitOnChar (Char.ofNat 47) s with
      | a :: b :: _ =>
        match pyFloat a, pyFloat b with
        | some q1, some q2 => if q2 = 0 then none else some (q1 / q2)
        | _, _ => none
      | _ => none
    else if containsChar quoteChar s then
      pyFloat (replaceChar quoteChar (Char.ofNat 46) s)
    else none

/-- The screen the coordinator will run next, `Artemis.screen`.  In the
Python source this is a list of bound methods; only the variants below
ever occur. -/
inductive Screen where
  | main
  | editIntervalScreen
  | editFramesScreen
  | editSpeedScreen
  | shootSet
deriving DecidableEq, Repr

/-- The mutable attributes of the `Artemis` object that the planner, the
config round-trip, the menu edits and the shooting loop read or write.
Pin numbers and the display handle are external collaborators and carry
no information relevant to the verified behaviour. -/
structure ArtemisState where
  frames : ℤ
  interval : ℤ
  time_to_end : ℚ
  settle_time : ℚ
  shutter_index : ℤ
  shutter_speed : ℚ
  motor_pulse : ℚ
  sleep_time : ℚ
  frame : ℤ
  run_timelapse : Bool
  wait_for_key : Bool
  screen : Screen
deriving DecidableEq, Repr

/-- The state `Artemis.__init__` builds with its default arguments
(frames=5, interval=2, shutter_index=2, time_to_end=160, settle 0.1),
before `load_config` and `calculate_intervals` run.  `motor_pulse` and
`sleep_time` do not exist as attributes yet at that point: they are first
assigned inside `calculate_intervals` and never read before that, so the
placeholders below are never observed.  `shutter_speed` is
`get_shutter_speed 2 = 1/6`. -/
def defaultState : ArtemisState :=
  { frames := 5, interval := 2, time_to_end := 160, settle_time := 1/10,
    shutter_index := 2, shutter_speed := 1/6, motor_pulse := 0, sleep_time := 0,
    frame := 1, run_timelapse := true, wait_for_key := true, screen := Screen.main }

/-- Method `Artemis.calculate_intervals`: raw motor pulse `time_to_end / frames`,
capped at `interval - shutter_speed - settle_time` when it exceeds that
bound, then `sleep_time = interval - motor_pulse - shutter_speed` (note:
the settle time is NOT subtracted here).  `frames = 0` raises
`ZeroDivisionError` in the float division, and a bad shutter index raises
`IndexError`; both are modelled as `none`. -/
def calculate_intervals (s : ArtemisState) : Option ArtemisState :=
  if s.frames = 0 then none
  else
    match get_shutter_speed s.shutter_index with
    | none => none
    | some sp =>
      let mp0 := s.time_to_end / (s.frames : ℚ)
      let mp := if mp0 > (s.interval : ℚ) - sp - s.settle_time
                then (s.interval : ℚ) - sp - s.settle_time else mp0
      some { s with shutter_speed := sp, motor_pulse := mp,
                    sleep_time := (s.interval : ℚ) - mp - sp }

/-- Method `Artemis.check_settings`: the feasibility test read by
`shoot_timelapse` before a run. -/
def check_settings (s : ArtemisState) : Bool :=
  if s.sleep_time < 0 ∨ s.motor_pulse > (s.interval : ℚ) ∨
     s.motor_pulse + s.sleep_time > (s.interval : ℚ) then false else true

/-- The flat persisted configuration record `~/.artemisrc`: a JSON object
whose keys `frames`, `interval`, `shutter` may each be present or absent.
`save_config` always writes all three. -/
structure ConfigFile where
  frames : Option ℤ
  interval : Option ℤ
  shutter : Option ℤ
deriving DecidableEq, Repr

/-- Method `Artemis.save_config`: serialises the three configuration fields. -/
def save_config (s : ArtemisState) : ConfigFile :=
  { frames := some s.frames, interval := some s.interval, shutter := some s.shutter_index }

/-- Method `Artemis.load_config`: `none` stands for a missing file or one that
`json.load` rejects (`ValueError`), in which case the state is kept.
Present keys overwrite the corresponding attributes with no validation;
a present `shutter` key also recomputes `shutter_speed`, which raises
`IndexError` on an out-of-range index (modelled as `none`). -/
def load_config (file : Option ConfigFile) (s : ArtemisState) : Option ArtemisState :=
  match file with
  | none => some s
  | some cfg =>
    let s1 := match cfg.frames with
      | some n => { s with frames := n }
      | none => s
    let s2 := match cfg.interval with
      | some n => { s1 with interval := n }
      | none => s1
    match cfg.shutter with
    | none => some s2
    | some n =>
      match get_shutter_speed n with
      | none => none
      | some sp => some { s2 with shutter_index := n, shutter_speed := sp }

/-- Method `Artemis.increase_interval`. -/
def increase_interval (s : ArtemisState) : ArtemisState :=
  if s.interval ≠ 30 then { s with interval := s.interval + 1 } else s

/-- Method `Artemis.decrease_interval`. -/
def decrease_interval (s : ArtemisState) : ArtemisState :=
  if s.interval > 1 then { s with interval := s.interval - 1 } else s

/-- Method `Artemis.increase_frames`. -/
def increase_frames (s : ArtemisState) : ArtemisState :=
  { s with frames := s.frames + 1 }

/-- Method `Artemis.decrease_frames`. -/
def decrease_frames (s : ArtemisState) : ArtemisState :=
  if s.frames ≠ 1 then { s with frames := s.frames - 1 } else s

/-- Method `Artemis.increase_speed`. -/
def increase_speed (s : ArtemisState) : ArtemisState :=
  if s.shutter_index < (shutter_values.length : ℤ) - 1
  then { s with shutter_index := s.shutter_index + 1 } else s

/-- Method `Artemis.decrease_speed`. -/
def decrease_speed (s : ArtemisState) : ArtemisState :=
  if s.shutter_index > 0 then { s with shutter_index := s.shutter_index - 1 } else s

/-- Method `Artemis.set_stop_timelapse`: the watcher's cancel action; it clears
the shared `run_timelapse` flag that the runner reads at the top of its
per-frame loop. -/
def set_stop_timelapse (s : ArtemisState) : ArtemisState :=
  { s with run_timelapse := false }

/-- An observable timed action of the shooting loop.  `shutterPulse d` is
`take_photo`: shutter pin high, sleep `d`, shutter pin low.  `motorPulse d`
is the pulse inside `move_camera`: motor pin high, sleep `d`, motor pin
low.  `sleep d` is a bare `time.sleep(d)`. -/
inductive Event where
  | shutterPulse (dur : ℚ)
  | motorPulse (dur : ℚ)
  | sleep (dur : ℚ)
deriving DecidableEq, Repr

/-- Recognises a completed exposure in an event trace. -/
def isShutterPulse : Event → Bool
  | .shutterPulse _ => true
  | _ => false

/-- The number of completed exposures in an event trace. -/
def numPhotos (tr : List Event) : ℕ := (tr.filter isShutterPulse).length

/-- Method `Artemis.delayed_start(pause=5)`: five one-second countdown sleeps
(the display rendering carries no pin activity). -/
def delayed_start_trace : List Event := List.replicate 5 (Event.sleep 1)

/-- The `while self.run_timelapse` loop of `Artemis.shoot_timelapse`,
starting at frame number `frame` with the `i`-th read of the shared flag
about to happen.  `cancelAt i = true` means the watcher's
`set_stop_timelapse` has cleared `run_timelapse` before that read — the
only place the runner observes cancellation.  Each iteration performs
`timelapse_screen` (display only), `take_photo`, then increments `frame`;
if the new value exceeds `frames` it clears `run_timelapse` and
`wait_for_key` and breaks; if the new value equals 1 it sleeps
`motor_pulse` and continues; otherwise it runs `move_camera` (motor pulse
then settle sleep) followed by `time.sleep(sleep_time)`.  Returns the
event trace, the final `frame`, and the final `wait_for_key`. -/
def shootLoop (frames : ℤ) (sp mp st sl : ℚ) (cancelAt : ℕ → Bool)
    (frame : ℤ) (i : ℕ) : List Event × ℤ × Bool :=
  if cancelAt i then ([], frame, true)
  else if h1 : frames < frame + 1 then ([Event.shutterPulse sp], frame + 1, false)
  else if h2 : frame + 1 = 1 then
    let r := shootLoop frames sp mp st sl cancelAt (frame + 1) (i + 1)
    (Event.shutterPulse sp :: Event.sleep mp :: r.1, r.2)
  else
    let r := shootLoop frames sp mp st sl cancelAt (frame + 1) (i + 1)
    (Event.shutterPulse sp :: Event.motorPulse mp :: Event.sleep st ::
       Event.sleep sl :: r.1, r.2)
termination_by (frames + 1 - frame).toNat
decreasing_by
  all_goals omega

/-- Method `Artemis.shoot_timelapse`, run against a cancellation schedule.  When
`check_settings` fails it clears `run_timelapse`, resets the screen to
main and returns `False` having emitted no event (no pin toggled, no
countdown).  Otherwise it runs the countdown, resets `frame` to 1, sets
`run_timelapse`, shows the screen, sleeps 0.5 s, runs the per-frame loop,
and finally resets the screen to main and returns `True`.  After the loop
`run_timelapse` is false on both exits (the runner cleared it on natural
completion, the watcher on cancellation). -/
def shoot_timelapse (s : ArtemisState) (cancelAt : ℕ → Bool) :
    List Event × ArtemisState × Bool :=
  if check_settings s then
    let r := shootLoop s.frames s.shutter_speed s.motor_pulse s.settle_time
      s.sleep_time cancelAt 1 0
    (delayed_start_trace ++ Event.sleep (1/2) :: r.1,
     { s with frame := r.2.1, run_timelapse := false, wait_for_key := r.2.2,
              screen := Screen.main }, true)
  else
    ([], { s with run_timelapse := false, screen := Screen.main }, false)

/-- The Configuration invariants stated by the spec's data model:
positive frame count, interval in `[1, 30]`, shutter index inside the
table. -/
def configInvariant (s : ArtemisState) : Prop :=
  0 < s.frames ∧ 0 < s.interval ∧ s.interval ≤ 30 ∧
    0 ≤ s.shutter_index ∧ s.shutter_index < (shutter_values.length : ℤ)

instance : DecidablePred configInvariant := fun s => by
  unfold configInvariant
  infer_instance

/-- A persisted file whose present values themselves satisfy the
Configuration bounds. -/
def fileInRange (c : ConfigFile) : Prop :=
  (∀ n, c.frames = some n → 0 < n) ∧
    (∀ n, c.interval = some n → 0 < n ∧ n ≤ 30) ∧
    (∀ n, c.shutter = some n → 0 ≤ n ∧ n < (shutter_values.length : ℤ))

/-- Modelled from the spec: the seconds each shutter-table entry denotes
under the `resolve` rule of section 4.1 — a fraction label `N/M` is `N/M`
seconds, a quoted-decimal label `N"M` is `N.M` seconds, a bare number is
itself.  Spelled out entry by entry for comparison with
`get_shutter_speed`. -/
def specShutterSeconds : List ℚ :=
  [1/10, 1/8, 1/6, 1/5, 1/4, 3/10, 2/5, 1/2, 3/5, 4/5, 1, 13/10, 8/5, 2,
   5/2, 3, 16/5, 4, 5, 6, 7, 8, 10, 13, 15, 20, 25, 30, 35, 40, 45, 50, 55, 60]

/-! ## General facts about the shutter table -/

/-- The shutter table has 34 entries. -/
theorem shutter_values_length : shutter_values.length = 34 := rfl

/-- Every in-range index resolves to some rational number of seconds. -/
theorem get_shutter_speed_isSome :
    ∀ i : ℕ, i < 34 → (get_shutter_speed (i : ℤ)).isSome = true := by
  with_unfolding_all decide

/-- Python wraparound: an index in the range of negative indexing reads the
entry counted from the back. -/
theorem pyGet_wraparound (l : List PyVal) (i : ℤ)
    (h1 : -(l.length : ℤ) ≤ i) (h2 : i < 0) :
    pyGet l i = pyGet l (i + l.length) := by
  unfold pyGet
  rw [if_neg (by omega : ¬ (0:ℤ) ≤ i), if_pos (by omega : (0:ℤ) ≤ i + l.length),
    if_pos (by omega : (0:ℤ) ≤ i + l.length)]

/-! ## C1 -/

/-- The timing plan of Scenario A (shutter index 10, one-second exposure,
otherwise default configuration), as computed by calculate_intervals. -/
def planA : ArtemisState :=
  { defaultState with
    shutter_index := 10
    shutter_speed := 1
    motor_pulse := 9/10
    sleep_time := 1/10 }

/-- C1, counterexample: on the feasible Scenario A configuration
(frameCount 5 ≥ 1, intervalSeconds 2 ≥ 1, valid shutter index 10,
idleSleep 1/10 ≥ 0) the sum motorPulse + exposure + settle + idleSleep is
21/10, not the interval 2: calculate_intervals never subtracts the settle
time from the idle sleep, so the sum including settle overshoots the
interval by exactly settle_time. -/
theorem c1_counterexample :
    calculate_intervals { defaultState with shutter_index := 10 } = some planA ∧
    0 ≤ planA.sleep_time ∧
    planA.motor_pulse + planA.shutter_speed + planA.settle_time + planA.sleep_time ≠
      (planA.interval : ℚ) :=
  ⟨by with_unfolding_all decide, by with_unfolding_all decide, by with_unfolding_all decide⟩

/-- C1, amended: for every frameCount ≥ 1, intervalSeconds ≥ 1 and valid
shutter index, the plan computed by calculate_intervals satisfies
motorPulse + exposure + idleSleep = intervalSeconds (without the settle
term) whenever idleSleep ≥ 0. -/
theorem c1_theorem (s t : ArtemisState) (hf : 1 ≤ s.frames) (_hi : 1 ≤ s.interval)
    (hc : calculate_intervals s = some t) (hs : 0 ≤ t.sleep_time) :
    t.motor_pulse + t.shutter_speed + t.sleep_time = (t.interval : ℚ) := by
  unfold calculate_intervals at hc
  rw [if_neg (by omega : ¬ s.frames = 0)] at hc
  cases hq : get_shutter_speed s.shutter_index with
  | none => rw [hq] at hc; exact absurd hc (by simp)
  | some sp =>
    rw [hq] at hc
    rw [Option.some.injEq] at hc
    subst hc
    simp only []
    ring

/-- Application of the amended C1 theorem to the Scenario A plan. -/
theorem c1_witness :
    planA.motor_pulse + planA.shutter_speed + planA.sleep_time = (planA.interval : ℚ) :=
  c1_theorem { defaultState with shutter_index := 10 } planA (by decide) (by decide)
    (by with_unfolding_all decide) (by with_unfolding_all decide)

/-! ## C5 -/

/-- A run during which the watcher never cancels. -/
def cancelNever : ℕ → Bool := fun _ => false

/-- A state whose stored timing plan fails check_settings (negative idle
sleep). -/
def infeasibleState : ArtemisState := { defaultState with sleep_time := -1 }

/-- C5: whenever check_settings is false, shoot_timelapse refuses the run:
it emits no event at all (no shutter pulse, no motor pulse, no countdown
sleep), resets the screen to main, clears run_timelapse and returns
False. -/
theorem c5_theorem (s : ArtemisState) (c : ℕ → Bool) (h : check_settings s = false) :
    shoot_timelapse s c =
      ([], { s with run_timelapse := false, screen := Screen.main }, false) := by
  simp [shoot_timelapse, h]

/-- Application of the C5 theorem to a concrete infeasible state. -/
theorem c5_witness :
    shoot_timelapse infeasibleState cancelNever =
      ([], { infeasibleState with run_timelapse := false, screen := Screen.main }, false) :=
  c5_theorem infeasibleState cancelNever (by with_unfolding_all decide)

/-! ## C6 -/

/-- C6: every edit action clamps at its boundary and moves by exactly one
elsewhere: interval increment is a no-op at 30 and +1 otherwise; interval
decrement is a no-op at 1 and -1 above 1; frames increment is always +1
(no ceiling); frames decrement is a no-op at 1 and -1 otherwise; shutter
index increment is a no-op at table length - 1 and +1 below it; shutter
index decrement is a no-op at 0 and -1 above 0. -/
theorem c6_theorem (s : ArtemisState) :
    (s.interval = 30 → increase_interval s = s) ∧
    (s.interval ≠ 30 → (increase_interval s).interval = s.interval + 1) ∧
    (s.interval = 1 → decrease_interval s = s) ∧
    (1 < s.interval → (decrease_interval s).interval = s.interval - 1) ∧
    ((increase_frames s).frames = s.frames + 1) ∧
    (s.frames = 1 → decrease_frames s = s) ∧
    (s.frames ≠ 1 → (decrease_frames s).frames = s.frames - 1) ∧
    (s.shutter_index = (shutter_values.length : ℤ) - 1 → increase_speed s = s) ∧
    (s.shutter_index < (shutter_values.length : ℤ) - 1 →
      (increase_speed s).shutter_index = s.shutter_index + 1) ∧
    (s.shutter_index = 0 → decrease_speed s = s) ∧
    (0 < s.shutter_index → (decrease_speed s).shutter_index = s.shutter_index - 1) := by
  rw [shutter_values_length]
  refine ⟨?_, ?_, ?_, ?_, ?_, ?_, ?_, ?_, ?_, ?_, ?_⟩
  · intro h
    unfold increase_interval
    rw [if_neg (by omega)]
  · intro h
    unfold increase_interval
    rw [if_pos (by omega)]
  · intro h
    unfold decrease_interval
    rw [if_neg (by omega)]
  · intro h
    unfold decrease_interval
    rw [if_pos (by omega)]
  · rfl
  · intro h
    unfold decrease_frames
    rw [if_neg (by omega)]
  · intro h
    unfold decrease_frames
    rw [if_pos (by omega)]
  · intro h
    unfold increase_speed
    rw [shutter_values_length, if_neg (by omega)]
  · intro h
    unfold increase_speed
    rw [shutter_values_length, if_pos (by omega)]
  · intro h
    unfold decrease_speed
    rw [if_neg (by omega)]
  · intro h
    unfold decrease_speed
    rw [if_pos (by omega)]

/-- Application of the C6 theorem at the boundaries and at the default
configuration. -/
theorem c6_witness :
    increase_interval { defaultState with interval := 30 } =
      { defaultState with interval := 30 } ∧
    (increase_interval defaultState).interval = 3 ∧
    decrease_interval { defaultState with interval := 1 } =
      { defaultState with interval := 1 } ∧
    (decrease_interval defaultState).interval = 1 ∧
    (increase_frames defaultState).frames = 6 ∧
    decrease_frames { defaultState with frames := 1 } =
      { defaultState with frames := 1 } ∧
    (decrease_frames defaultState).frames = 4 ∧
    increase_speed { defaultState with shutter_index := 33 } =
      { defaultState with shutter_index := 33 } ∧
    (increase_speed defaultState).shutter_index = 3 ∧
    decrease_speed { defaultState with shutter_index := 0 } =
      { defaultState with shutter_index := 0 } ∧
    (decrease_speed defaultState).shutter_index = 1 := by
  refine ⟨(c6_theorem _).1 (by decide),
    by simpa [defaultState] using (c6_theorem defaultState).2.1 (by decide),
    (c6_theorem _).2.2.1 (by decide),
    by simpa [defaultState] using (c6_theorem defaultState).2.2.2.1 (by decide),
    by simpa [defaultState] using (c6_theorem defaultState).2.2.2.2.1,
    (c6_theorem _).2.2.2.2.2.1 (by decide),
    by simpa [defaultState] using (c6_theorem defaultState).2.2.2.2.2.2.1 (by decide),
    (c6_theorem _).2.2.2.2.2.2.2.1 (by decide),
    by simpa [defaultState] using (c6_theorem defaultState).2.2.2.2.2.2.2.2.1 (by decide),
    (c6_theorem _).2.2.2.2.2.2.2.2.2.1 (by decide),
    by simpa [defaultState] using (c6_theorem defaultState).2.2.2.2.2.2.2.2.2.2 (by decide)⟩

/-! ## C8 -/

/-- C8, counterexample: the index -1 is outside the range 0 to table
length - 1, yet get_shutter_speed does not fail there: Python negative
indexing silently returns the last entry, 60 seconds. -/
theorem c8_counterexample :
    get_shutter_speed (-1) = some 60 ∧
    ¬ (0 ≤ (-1 : ℤ) ∧ (-1 : ℤ) < (shutter_values.length : ℤ)) :=
  ⟨by with_unfolding_all decide, by decide⟩

/-- C8, amended: for every index in the range 0 to table length - 1,
get_shutter_speed returns exactly the seconds the resolve rule assigns
(N/M for a fraction label, N.M for a quoted-decimal label, the number
itself for an integer entry); it fails with IndexError only for an index
at or above the table length or strictly below minus the table length,
while an index in the negative-indexing range wraps to the entry counted
from the back. -/
theorem c8_theorem :
    (∀ i : ℕ, i < 34 → get_shutter_speed (i : ℤ) = specShutterSeconds.get? i) ∧
    (∀ i : ℤ, (shutter_values.length : ℤ) ≤ i → get_shutter_speed i = none) ∧
    (∀ i : ℤ, i < -(shutter_values.length : ℤ) → get_shutter_speed i = none) ∧
    (∀ i : ℤ, -(shutter_values.length : ℤ) ≤ i → i < 0 →
      get_shutter_speed i = get_shutter_speed (i + shutter_values.length)) := by
  refine ⟨by with_unfolding_all decide, ?_, ?_, ?_⟩
  · intro i h
    unfold get_shutter_speed pyGet
    rw [if_pos (by omega : (0:ℤ) ≤ i),
      List.get?_eq_none.mpr (by rw [shutter_values_length] at h ⊢; omega)]
  · intro i h
    unfold get_shutter_speed pyGet
    rw [if_neg (by omega : ¬ (0:ℤ) ≤ i),
      if_neg (by omega : ¬ (0:ℤ) ≤ i + (shutter_values.length : ℤ))]
  · intro i h1 h2
    unfold get_shutter_speed
    rw [pyGet_wraparound shutter_values i (by omega) h2]

/-- Application of the amended C8 theorem at index 0, at the upper
IndexError boundary, at the lower IndexError boundary, and at the
wraparound index -34. -/
theorem c8_witness :
    get_shutter_speed (0 : ℤ) = specShutterSeconds.get? 0 ∧
    get_shutter_speed 34 = none ∧
    get_shutter_speed (-35) = none ∧
    get_shutter_speed (-34) = get_shutter_speed ((-34) + shutter_values.length) :=
  ⟨c8_theorem.1 0 (by decide), c8_theorem.2.1 34 (by decide),
   c8_theorem.2.2.1 (-35) (by decide), c8_theorem.2.2.2 (-34) (by decide) (by decide)⟩

/-! ## C9 -/

/-- C9: saving a configuration and loading the saved file reproduces the
frames, interval and shutter index values exactly, into any state,
provided the saved shutter index is a valid table index (load_config
recomputes the shutter speed, which must not raise). -/
theorem c9_theorem (s t : ArtemisState) (h1 : 0 ≤ s.shutter_index)
    (h2 : s.shutter_index < (shutter_values.length : ℤ)) :
    (load_config (some (save_config s)) t).map ArtemisState.frames = some s.frames ∧
    (load_config (some (save_config s)) t).map ArtemisState.interval = some s.interval ∧
    (load_config (some (save_config s)) t).map ArtemisState.shutter_index =
      some s.shutter_index := by
  obtain ⟨q, hq⟩ : ∃ q, get_shutter_speed s.shutter_index = some q := by
    have h3 := get_shutter_speed_isSome s.shutter_index.toNat
      (by rw [shutter_values_length] at h2; omega)
    have h4 : (s.shutter_index.toNat : ℤ) = s.shutter_index := by omega
    rw [h4] at h3
    exact Option.isSome_iff_exists.mp h3
  simp [load_config, save_config, hq]

/-- Application of the C9 round-trip theorem: the default configuration
saved and re-loaded into a state with a different frame count. -/
theorem c9_witness :
    (load_config (some (save_config defaultState)) { defaultState with frames := 9 }).map
      ArtemisState.frames = some defaultState.frames ∧
    (load_config (some (save_config defaultState)) { defaultState with frames := 9 }).map
      ArtemisState.interval = some defaultState.interval ∧
    (load_config (some (save_config defaultState)) { defaultState with frames := 9 }).map
      ArtemisState.shutter_index = some defaultState.shutter_index :=
  c9_theorem defaultState { defaultState with frames := 9 } (by decide) (by decide)

/-! ## The shooting loop: general lemmas -/

/-- If the watcher has cleared the running flag before the read at the top
of the loop, the runner exits immediately: no event, frame untouched. -/
theorem shootLoop_cancelled (frames : ℤ) (sp mp st sl : ℚ) (c : ℕ → Bool)
    (frame : ℤ) (i : ℕ) (h : c i = true) :
    shootLoop frames sp mp st sl c frame i = ([], frame, true) := by
  rw [shootLoop.eq_def, if_pos h]

/-- The frame counter always ends one exposure count above where it
started: frame only advances right after a completed exposure. -/
theorem shootLoop_frame_add (frames : ℤ) (sp mp st sl : ℚ) (c : ℕ → Bool)
    (frame : ℤ) (i : ℕ) :
    (shootLoop frames sp mp st sl c frame i).2.1 =
      frame + numPhotos (shootLoop frames sp mp st sl c frame i).1 := by
  induction frame, i using shootLoop.induct frames sp mp st sl c with
  | case1 frame i h =>
    rw [shootLoop.eq_def]
    simp [h, numPhotos]
  | case2 frame i h h1 =>
    rw [shootLoop.eq_def]
    simp [h, h1, numPhotos, isShutterPulse]
  | case3 frame i h h1 h2 ih =>
    rw [shootLoop.eq_def]
    simp only [if_neg h, dif_neg h1, dif_pos h2]
    simp only [numPhotos, List.filter, isShutterPulse] at ih ⊢
    simp only [List.length_cons]
    omega
  | case4 frame i h h1 h2 ih =>
    rw [shootLoop.eq_def]
    simp only [if_neg h, dif_neg h1, dif_neg h2]
    simp only [numPhotos, List.filter, isShutterPulse] at ih ⊢
    simp only [List.length_cons]
    omega

/-- A cancellation landing before the read numbered i + m allows at most m
further completed exposures: the runner checks the flag once per frame. -/
theorem shootLoop_photos_le (frames : ℤ) (sp mp st sl : ℚ) (c : ℕ → Bool) :
    ∀ (m : ℕ) (frame : ℤ) (i : ℕ), c (i + m) = true →
      numPhotos (shootLoop frames sp mp st sl c frame i).1 ≤ m := by
  intro m
  induction m with
  | zero =>
    intro frame i h
    rw [shootLoop_cancelled frames sp mp st sl c frame i (by simpa using h)]
    simp [numPhotos]
  | succ m ih =>
    intro frame i h
    by_cases hc : c i = true
    · rw [shootLoop_cancelled frames sp mp st sl c frame i hc]
      simp [numPhotos]
    · rw [shootLoop.eq_def, if_neg hc]
      by_cases h1 : frames < frame + 1
      · rw [dif_pos h1]
        simp [numPhotos, isShutterPulse]
      · rw [dif_neg h1]
        have h3 : i + 1 + m = i + (m + 1) := by omega
        have h4 := ih (frame + 1) (i + 1) (by rw [h3]; exact h)
        by_cases h2 : frame + 1 = 1
        · rw [dif_pos h2]
          simp only [numPhotos, List.filter, isShutterPulse] at h4 ⊢
          simp only [List.length_cons]
          omega
        · rw [dif_neg h2]
          simp only [numPhotos, List.filter, isShutterPulse] at h4 ⊢
          simp only [List.length_cons]
          omega

/-- The countdown and the pre-loop half-second sleep contain no exposure,
so the photo count of a full run is the photo count of its loop. -/
theorem numPhotos_run (x : List Event) :
    numPhotos (delayed_start_trace ++ Event.sleep (1/2) :: x) = numPhotos x := by
  simp [numPhotos, delayed_start_trace, List.filter_append, List.replicate,
    List.filter, isShutterPulse]

/-- On a feasible run the final frame counter is one more than the number
of completed exposures, regardless of when cancellation lands. -/
theorem shoot_timelapse_frame (s : ArtemisState) (c : ℕ → Bool)
    (h : check_settings s = true) :
    (shoot_timelapse s c).2.1.frame = 1 + (numPhotos (shoot_timelapse s c).1 : ℤ) := by
  simp only [shoot_timelapse]
  rw [if_pos h]
  simp only [numPhotos_run]
  exact shootLoop_frame_add s.frames s.shutter_speed s.motor_pulse s.settle_time
    s.sleep_time c 1 0

/-! ## C4 -/

/-- A feasible three-frame configuration whose stored plan passes
check_settings. -/
def stateC4 : ArtemisState :=
  { defaultState with
    frames := 3
    shutter_speed := 1
    motor_pulse := 9/10
    sleep_time := 1/10 }

/-- A watcher that cancels after the first read of the running flag. -/
def cancelAfterOne : ℕ → Bool := fun i => decide (1 ≤ i)

/-- C4, counterexample: cancelling right after frame 1 completes leaves
the frame counter at 2, not at the last completed value 1: the counter is
incremented immediately after each exposure, so on cancellation it sits
one past the last completed frame. -/
theorem c4_counterexample :
    numPhotos (shoot_timelapse stateC4 cancelAfterOne).1 = 1 ∧
    (shoot_timelapse stateC4 cancelAfterOne).2.1.frame = 2 ∧
    (2 : ℤ) ≠ 1 := by
  have hcheck : check_settings stateC4 = true := by with_unfolding_all decide
  have hloop : shootLoop stateC4.frames stateC4.shutter_speed stateC4.motor_pulse
      stateC4.settle_time stateC4.sleep_time cancelAfterOne 1 0 =
      ([Event.shutterPulse 1, Event.motorPulse (9/10), Event.sleep (1/10),
        Event.sleep (1/10)], 2, true) := by
    show shootLoop 3 1 (9/10) (1/10) (1/10) cancelAfterOne 1 0 = _
    rw [shootLoop.eq_def]
    norm_num [cancelAfterOne]
    rw [shootLoop.eq_def]
    norm_num [cancelAfterOne]
  refine ⟨?_, ?_, by decide⟩
  · simp only [shoot_timelapse]
    rw [if_pos hcheck, hloop, numPhotos_run]
    simp [numPhotos, List.filter, isShutterPulse]
  · simp only [shoot_timelapse]
    rw [if_pos hcheck, hloop]

/-- C4, amended: cancellation is observed only at the reads at the top of
the per-frame loop: if the flag is already clear at a read, the runner
stops at once with no further event; the frame counter always equals its
starting value plus the number of completed exposures (so no partial
exposure is ever counted); a cancellation before read i + m allows at most
m more exposures; and on any feasible run the final frame counter is one
MORE than the number of completed frames, not equal to it. -/
theorem c4_theorem :
    (∀ (frames : ℤ) (sp mp st sl : ℚ) (c : ℕ → Bool) (frame : ℤ) (i : ℕ),
      (c i = true → shootLoop frames sp mp st sl c frame i = ([], frame, true)) ∧
      (shootLoop frames sp mp st sl c frame i).2.1 =
        frame + numPhotos (shootLoop frames sp mp st sl c frame i).1 ∧
      (∀ m : ℕ, c (i + m) = true →
        numPhotos (shootLoop frames sp mp st sl c frame i).1 ≤ m)) ∧
    (∀ (s : ArtemisState) (c : ℕ → Bool), check_settings s = true →
      (shoot_timelapse s c).2.1.frame = 1 + (numPhotos (shoot_timelapse s c).1 : ℤ)) :=
  ⟨fun frames sp mp st sl c frame i =>
    ⟨shootLoop_cancelled frames sp mp st sl c frame i,
     shootLoop_frame_add frames sp mp st sl c frame i,
     fun m => shootLoop_photos_le frames sp mp st sl c m frame i⟩,
   shoot_timelapse_frame⟩

/-- Application of the amended C4 theorem: an already-cancelled loop stops
with no event, and the cancelled three-frame run of the counterexample
state ends with its frame counter one above its photo count. -/
theorem c4_witness :
    shootLoop 3 1 1 1 1 (fun _ => true) 7 0 = ([], 7, true) ∧
    (shoot_timelapse stateC4 cancelAfterOne).2.1.frame =
      1 + (numPhotos (shoot_timelapse stateC4 cancelAfterOne).1 : ℤ) :=
  ⟨(c4_theorem.1 3 1 1 1 1 (fun _ => true) 7 0).1 rfl,
   c4_theorem.2 stateC4 cancelAfterOne (by with_unfolding_all decide)⟩

/-! ## C3 -/

/-- A feasible two-frame configuration whose stored plan passes
check_settings. -/
def stateC3 : ArtemisState :=
  { defaultState with
    frames := 2
    shutter_speed := 1
    motor_pulse := 9/10
    sleep_time := 1/10 }

/-- C3: on a feasible two-frame run with no cancellation, the event right
after the first exposure is a motor pulse: the carriage moves after frame
1.  The source increments frame before testing frame == 1, so the
sleep-only branch meant for the very first frame is unreachable and every
frame except the last is followed by a carriage move. -/
theorem c3_code_bug :
    shoot_timelapse stateC3 cancelNever =
      (delayed_start_trace ++ [Event.sleep (1/2), Event.shutterPulse 1,
        Event.motorPulse (9/10), Event.sleep (1/10), Event.sleep (1/10),
        Event.shutterPulse 1],
       { stateC3 with frame := 3, run_timelapse := false, wait_for_key := false, screen := Screen.main },
       true) := by
  have hcheck : check_settings stateC3 = true := by with_unfolding_all decide
  have hloop : shootLoop stateC3.frames stateC3.shutter_speed stateC3.motor_pulse
      stateC3.settle_time stateC3.sleep_time cancelNever 1 0 =
      ([Event.shutterPulse 1, Event.motorPulse (9/10), Event.sleep (1/10),
        Event.sleep (1/10), Event.shutterPulse 1], 3, false) := by
    show shootLoop 2 1 (9/10) (1/10) (1/10) cancelNever 1 0 = _
    rw [shootLoop.eq_def]
    norm_num [cancelNever]
    rw [shootLoop.eq_def]
    norm_num [cancelNever]
  simp only [shoot_timelapse]
  rw [if_pos hcheck, hloop]

/-! ## C2 -/

/-- The Scenario B configuration: default state with shutter index 13,
whose table entry is a 2-second exposure against a 2-second interval. -/
def scenarioB : ArtemisState := { defaultState with shutter_index := 13 }

/-- The timing plan calculate_intervals derives for Scenario B: the capped
motor pulse is negative. -/
def planB : ArtemisState :=
  { defaultState with
    shutter_index := 13
    shutter_speed := 2
    motor_pulse := -(1/10)
    sleep_time := 1/10 }

/-- C2, failing input: on Scenario B the exposure plus settle time (2.1 s)
is at least the interval (2 s), yet check_settings returns true and
shoot_timelapse proceeds with the run instead of refusing it: the cap in
calculate_intervals drives motor_pulse to -1/10 and sleep_time to the
settle time, which slips through every disjunct of the check.  The runner
would then hand the negative pulse length to time.sleep inside
move_camera, a ValueError at run time. -/
theorem c2_code_bug :
    calculate_intervals scenarioB = some planB ∧
    (planB.interval : ℚ) ≤ planB.shutter_speed + planB.settle_time ∧
    check_settings planB = true ∧
    planB.motor_pulse < 0 ∧
    (shoot_timelapse planB cancelNever).2.2 = true := by
  have hcheck : check_settings planB = true := by with_unfolding_all decide
  refine ⟨by with_unfolding_all decide, by with_unfolding_all decide, hcheck,
    by with_unfolding_all decide, ?_⟩
  simp only [shoot_timelapse]
  rw [if_pos hcheck]

/-! ## C7 -/

/-- A syntactically valid persisted file carrying an out-of-range value:
a frame count of zero. -/
def badFile : ConfigFile := { frames := some 0, interval := none, shutter := none }

/-- C7, counterexample: load_config accepts a persisted file with frames
= 0 without validation, leaving a state that violates the positive
frame-count invariant. -/
theorem c7_counterexample :
    load_config (some badFile) defaultState = some { defaultState with frames := 0 } ∧
    ¬ configInvariant { defaultState with frames := 0 } :=
  ⟨rfl, by decide⟩

/-- C7, amended: every menu edit action preserves the Configuration
invariants, and load_config preserves them provided every value present
in the file itself satisfies the corresponding bound — the code performs
no validation, so an arbitrary file can break them. -/
theorem c7_theorem (s : ArtemisState) (hs : configInvariant s) :
    configInvariant (increase_interval s) ∧ configInvariant (decrease_interval s) ∧
    configInvariant (increase_frames s) ∧ configInvariant (decrease_frames s) ∧
    configInvariant (increase_speed s) ∧ configInvariant (decrease_speed s) ∧
    ∀ f t, fileInRange f → load_config (some f) s = some t → configInvariant t := by
  obtain ⟨h1, h2, h3, h4, h5⟩ := hs
  refine ⟨?_, ?_, ?_, ?_, ?_, ?_, ?_⟩
  · unfold increase_interval
    split
    · exact ⟨h1, by show (0:ℤ) < s.interval + 1; omega,
        by show s.interval + 1 ≤ 30; omega, h4, h5⟩
    · exact ⟨h1, h2, h3, h4, h5⟩
  · unfold decrease_interval
    split
    · exact ⟨h1, by show (0:ℤ) < s.interval - 1; omega,
        by show s.interval - 1 ≤ 30; omega, h4, h5⟩
    · exact ⟨h1, h2, h3, h4, h5⟩
  · exact ⟨by show (0:ℤ) < s.frames + 1; omega, h2, h3, h4, h5⟩
  · unfold decrease_frames
    split
    · exact ⟨by show (0:ℤ) < s.frames - 1; omega, h2, h3, h4, h5⟩
    · exact ⟨h1, h2, h3, h4, h5⟩
  · unfold increase_speed
    split
    · exact ⟨h1, h2, h3, by show (0:ℤ) ≤ s.shutter_index + 1; omega,
        by show s.shutter_index + 1 < (shutter_values.length : ℤ); omega⟩
    · exact ⟨h1, h2, h3, h4, h5⟩
  · unfold decrease_speed
    split
    · exact ⟨h1, h2, h3, by show (0:ℤ) ≤ s.shutter_index - 1; omega,
        by show s.shutter_index - 1 < (shutter_values.length : ℤ); omega⟩
    · exact ⟨h1, h2, h3, h4, h5⟩
  · intro f t hf hl
    obtain ⟨hf1, hf2, hf3⟩ := hf
    rcases f with ⟨fo, io, so⟩
    unfold load_config at hl
    cases fo with
    | none =>
      cases io with
      | none =>
        cases so with
        | none =>
          dsimp only at hl
          injection hl with hl
          subst hl
          exact ⟨h1, h2, h3, h4, h5⟩
        | some n =>
          dsimp only at hl
          cases hg : get_shutter_speed n with
          | none => rw [hg] at hl; simp at hl
          | some sp =>
            rw [hg] at hl
            injection hl with hl
            subst hl
            obtain ⟨hn1, hn2⟩ := hf3 n rfl
            exact ⟨h1, h2, h3, hn1, hn2⟩
      | some b =>
        obtain ⟨hb1, hb2⟩ := hf2 b rfl
        cases so with
        | none =>
          dsimp only at hl
          injection hl with hl
          subst hl
          exact ⟨h1, hb1, hb2, h4, h5⟩
        | some n =>
          dsimp only at hl
          cases hg : get_shutter_speed n with
          | none => rw [hg] at hl; simp at hl
          | some sp =>
            rw [hg] at hl
            injection hl with hl
            subst hl
            obtain ⟨hn1, hn2⟩ := hf3 n rfl
            exact ⟨h1, hb1, hb2, hn1, hn2⟩
    | some a =>
      have ha := hf1 a rfl
      cases io with
      | none =>
        cases so with
        | none =>
          dsimp only at hl
          injection hl with hl
          subst hl
          exact ⟨ha, h2, h3, h4, h5⟩
        | some n =>
          dsimp only at hl
          cases hg : get_shutter_speed n with
          | none => rw [hg] at hl; simp at hl
          | some sp =>
            rw [hg] at hl
            injection hl with hl
            subst hl
            obtain ⟨hn1, hn2⟩ := hf3 n rfl
            exact ⟨ha, h2, h3, hn1, hn2⟩
      | some b =>
        obtain ⟨hb1, hb2⟩ := hf2 b rfl
        cases so with
        | none =>
          dsimp only at hl
          injection hl with hl
          subst hl
          exact ⟨ha, hb1, hb2, h4, h5⟩
        | some n =>
          dsimp only at hl
          cases hg : get_shutter_speed n with
          | none => rw [hg] at hl; simp at hl
          | some sp =>
            rw [hg] at hl
            injection hl with hl
            subst hl
            obtain ⟨hn1, hn2⟩ := hf3 n rfl
            exact ⟨ha, hb1, hb2, hn1, hn2⟩

/-- A persisted file all of whose values satisfy the Configuration
bounds. -/
def goodFile : ConfigFile := { frames := some 7, interval := some 3, shutter := some 0 }

/-- Application of the amended C7 theorem: an edit action on the default
configuration, and a load of an in-range file. -/
theorem c7_witness :
    configInvariant (increase_frames defaultState) ∧
    configInvariant { defaultState with frames := 7, interval := 3, shutter_index := 0, shutter_speed := 1/10 } :=
  ⟨(c7_theorem defaultState (by decide)).2.2.1,
   (c7_theorem defaultState (by decide)).2.2.2.2.2.2 goodFile
     { defaultState with frames := 7, interval := 3, shutter_index := 0, shutter_speed := 1/10 }
     (by refine ⟨fun n hn => ?_, fun n hn => ?_, fun n hn => ?_⟩ <;>
           injection hn with hn <;> subst hn <;>
           simp [shutter_values_length])
     (by with_unfolding_all decide)⟩

/-! ## C10 -/

/-- C10: whenever the cap in calculate_intervals fires (the raw motor
pulse timeToEnd/frameCount exceeds interval - exposure - settle), the
computed sleep_time collapses to exactly settle_time, hence is
non-negative, and check_settings accepts the configuration for every
positive exposure — regardless of whether exposure + settle exceeds the
interval. -/
theorem c10_theorem (s : ArtemisState) (sp : ℚ) (hf : 1 ≤ s.frames)
    (hq : get_shutter_speed s.shutter_index = some sp) (hsp : 0 < sp)
    (hst : 0 ≤ s.settle_time)
    (hcap : s.time_to_end / (s.frames : ℚ) > (s.interval : ℚ) - sp - s.settle_time) :
    (calculate_intervals s).map ArtemisState.sleep_time = some s.settle_time ∧
    ∀ t, calculate_intervals s = some t → 0 ≤ t.sleep_time ∧ check_settings t = true := by
  have hcalc : calculate_intervals s =
      some { s with
        shutter_speed := sp
        motor_pulse := (s.interval : ℚ) - sp - s.settle_time
        sleep_time := (s.interval : ℚ) - ((s.interval : ℚ) - sp - s.settle_time) - sp } := by
    unfold calculate_intervals
    rw [if_neg (by omega : ¬ s.frames = 0), hq]
    dsimp only
    rw [if_pos hcap]
  have hsleep : (s.interval : ℚ) - ((s.interval : ℚ) - sp - s.settle_time) - sp =
      s.settle_time := by ring
  constructor
  · rw [hcalc]
    dsimp only [Option.map]
    rw [Option.some.injEq]
    exact hsleep
  · intro t ht
    rw [hcalc] at ht
    injection ht with ht
    subst ht
    constructor
    · dsimp only
      rw [hsleep]
      exact hst
    · unfold check_settings
      rw [if_neg]
      dsimp only
      push_neg
      refine ⟨by rw [hsleep]; exact hst, by linarith, by rw [hsleep]; linarith⟩

/-- Application of the C10 theorem to the Scenario B configuration, where
the cap fires because the exposure fills the whole interval. -/
theorem c10_witness :
    (calculate_intervals scenarioB).map ArtemisState.sleep_time = some scenarioB.settle_time ∧
    (0 ≤ planB.sleep_time ∧ check_settings planB = true) :=
  ⟨(c10_theorem scenarioB 2 (by decide) (by with_unfolding_all decide)
      (by with_unfolding_all decide) (by with_unfolding_all decide)
      (by with_unfolding_all decide)).1,
   (c10_theorem scenarioB 2 (by decide) (by with_unfolding_all decide)
      (by with_unfolding_all decide) (by with_unfolding_all decide)
      (by with_unfolding_all decide)).2 planB (by with_unfolding_all decide)⟩
